import Mathlib

/-!
Verification of the MindMate emotion inference and wellness scoring engine.

The definitions below are a shallow embedding of the backend services
(src/backend/src/services/emotionAnalysis.js, sessionCompletion.js,
friendMatching.js, localDatabase.js).  JavaScript numbers are modelled as
exact rationals; the toFixed and Math.round operations are modelled as
round half up.  Nullable or missing JavaScript values are modelled with
Option, and JavaScript exceptions with Except.
-/

namespace MindMate

/-- Model of JavaScript Math.round (round half toward positive infinity). -/
def jsRound (x : ℚ) : ℤ := ⌊x + 1/2⌋

/-- Lowercasing, character by character (model of toLowerCase). -/
def toLowerStr (s : String) : String := ⟨s.data.map Char.toLower⟩

/-- Removal of leading whitespace characters. -/
def dropLeadingWs (cs : List Char) : List Char := cs.dropWhile Char.isWhitespace

/-- Model of String.prototype.trim: strip whitespace from both ends. -/
def trimStr (s : String) : String :=
  ⟨((dropLeadingWs s.data).reverse.dropWhile Char.isWhitespace).reverse⟩

/-- Model of Number.prototype.toFixed 2 followed by parseFloat, for
nonnegative values: round half up at the second decimal. -/
def round2 (x : ℚ) : ℚ := (jsRound (100 * x) : ℚ) / 100

/-- Normalized result of one emotion classification, as produced by
emotionAnalysis.js (the fields the verified claims are about). -/
structure EmotionResult where
  emotion : String
  intensity : ℚ
  confidence : ℚ
deriving DecidableEq, Repr

/-- The fixed closed emotion set of the data model (spec section 3). -/
def closedEmotionSet : List String :=
  ["happy", "sad", "angry", "anxious", "calm", "neutral", "excited", "peaceful"]

/-- Word characters as in the JavaScript regex class backslash-w. -/
def isWordChar (c : Char) : Bool := c.isAlphanum || c == '_'

/-- Accumulating splitter behind the tokenizer: collects maximal runs of
word characters, dropping separators. -/
def wordsAux : List Char → List Char → List String
  | [], cur => if cur = [] then [] else [⟨cur.reverse⟩]
  | c :: cs, cur =>
    if isWordChar c then wordsAux cs (c :: cur)
    else if cur = [] then wordsAux cs []
    else (⟨cur.reverse⟩ : String) :: wordsAux cs []

/-- Model of natural.WordTokenizer over the cleaned text: maximal runs of
word characters. -/
def tokenizeWords (s : String) : List String := wordsAux s.data []

/-- The fixed per-emotion keyword sets of analyzeTextWithKeywords
(emotionAnalysis.js lines 281-313). -/
def emotionKeywords (e : String) : List String :=
  match e with
  | "happy" =>
    ["happy", "joy", "excited", "amazing", "wonderful", "great", "fantastic",
     "love", "perfect", "awesome", "brilliant", "cheerful", "delighted",
     "thrilled", "ecstatic", "blissful", "content", "satisfied", "pleased"]
  | "sad" =>
    ["sad", "depressed", "down", "upset", "terrible", "awful", "horrible",
     "disappointed", "heartbroken", "miserable", "gloomy", "melancholy",
     "sorrowful", "dejected", "despondent", "grief", "mourning", "crying",
     "unhappy", "unfortunate", "regret", "lonely", "alone", "isolated",
     "hurt", "pain", "suffering", "blue", "low", "hopeless", "discouraged"]
  | "angry" =>
    ["angry", "mad", "furious", "irritated", "annoyed", "frustrated",
     "outraged", "livid", "enraged", "hostile", "aggressive", "bitter",
     "resentful", "indignant", "irate", "rage", "wrath", "hatred"]
  | "anxious" =>
    ["anxious", "worried", "nervous", "stressed", "overwhelmed", "panic",
     "scared", "afraid", "fearful", "concerned", "troubled", "uneasy",
     "restless", "tense", "apprehensive", "paranoid", "insecure", "dread"]
  | "calm" =>
    ["calm", "peaceful", "relaxed", "serene", "tranquil", "composed",
     "zen", "balanced", "centered", "still", "quiet", "soothed",
     "restful", "gentle", "mild", "placid", "undisturbed", "harmonious"]
  | "neutral" =>
    ["okay", "fine", "normal", "regular", "average", "ordinary",
     "usual", "standard", "typical", "moderate", "balanced", "stable"]
  | _ => []

/-- Iteration order of the emotion keyword table (object key order). -/
def emotionFamily : List String :=
  ["happy", "sad", "angry", "anxious", "calm", "neutral"]

/-- Number of whole-word keyword matches for one emotion: each token equal
to a keyword of that emotion is one regex match. -/
def keywordMatches (tokens : List String) (e : String) : ℕ :=
  tokens.countP (fun t => (emotionKeywords e).contains t)

/-- Total keyword matches across all six emotion keyword sets. -/
def totalKeywordMatches (tokens : List String) : ℕ :=
  (emotionFamily.map (keywordMatches tokens)).sum

/-- The maxScore and primaryEmotion loop of analyzeTextWithKeywords
(lines 334-345): strict greater keeps the earlier emotion on ties. -/
def pickPrimary (tokens : List String) : ℕ × String :=
  emotionFamily.foldl
    (fun p e => if keywordMatches tokens e > p.1 then (keywordMatches tokens e, e) else p)
    (0, "neutral")

/-- The negative-word prefixes and words of the sentiment fallback regex
(line 353): a match is a token starting with one of these. -/
def negativePrefixes : List String :=
  ["un", "not", "never", "no", "dis", "hate", "terrible", "awful", "bad",
   "worse", "worst", "unfortunately", "sadly"]

/-- Test of the negative-word regex against the cleaned text. -/
def hasNegativeWords (tokens : List String) : Bool :=
  tokens.any (fun t => negativePrefixes.any (fun p => p.data.isPrefixOf t.data))

/-- Keyword and sentiment based classifier analyzeTextWithKeywords
(emotionAnalysis.js lines 273-396).  The sentiment score of the external
sentiment library is passed in as an integer parameter. -/
def analyzeTextWithKeywords (text : String) (sentScore : ℤ) : EmotionResult :=
  let tokens := tokenizeWords (trimStr (toLowerStr text))
  let maxScore := (pickPrimary tokens).1
  let confidence : ℚ :=
    if totalKeywordMatches tokens > 0
    then min (7/10 + (maxScore : ℚ) * (1/10)) (9/10)
    else min (4/10 + |(sentScore : ℚ)| * (5/100)) (7/10)
  if totalKeywordMatches tokens > 0 then
    let intensity : ℚ :=
      min ((maxScore : ℚ) / (tokens.length : ℚ) * 10 + |(sentScore : ℚ) / 10|) 1
    ⟨(pickPrimary tokens).2, round2 intensity, round2 confidence⟩
  else
    if hasNegativeWords tokens ∨ sentScore < -1 then
      ⟨"sad", round2 (min (|(sentScore : ℚ)| / 8) (8/10)), round2 confidence⟩
    else if sentScore > 3 then
      ⟨"happy", round2 (min ((sentScore : ℚ) / 10) (9/10)), round2 confidence⟩
    else
      ⟨"neutral", round2 (1/2), round2 confidence⟩

/-- Outcome of the remote provider call as seen by analyzeTextWithAI:
either an exception somewhere in the call, parse or field extraction
(network error, timeout, malformed JSON, non-numeric fields), or a parsed
JSON object with an emotion string and optionally numeric intensity and
confidence fields (none models a missing or non-numeric field, whose
toFixed call throws). -/
inductive AIResponse where
  | failure : AIResponse
  | parsed (emotion : String) (intensity : Option ℚ) (confidence : Option ℚ) : AIResponse
deriving DecidableEq, Repr

/-- Remote path analyzeTextWithAI (lines 60-136): a fully parsed response
with numeric fields is returned with the provider label and rounded
fields, entirely unvalidated; any exception falls back to the keyword
classifier. -/
def analyzeTextWithAI (resp : AIResponse) (text : String) (sentScore : ℤ) : EmotionResult :=
  match resp with
  | .failure => analyzeTextWithKeywords text sentScore
  | .parsed e i c =>
    match i, c with
    | some iv, some cv => ⟨e, round2 iv, round2 cv⟩
    | some _, none => analyzeTextWithKeywords text sentScore
    | none, _ => analyzeTextWithKeywords text sentScore

/-- Entry point analyzeText (lines 35-53).  The input is an Option so that
none models a null or non-string argument; the useAI flag models the
presence of a provider credential. -/
def analyzeText (useAI : Bool) (resp : AIResponse) (input : Option String)
    (sentScore : ℤ) : Except String EmotionResult :=
  match input with
  | none => .error "Text emotion analysis failed: Invalid text input for emotion analysis"
  | some t =>
    if t = "" then
      .error "Text emotion analysis failed: Invalid text input for emotion analysis"
    else
      .ok (if useAI then analyzeTextWithAI resp t sentScore
           else analyzeTextWithKeywords t sentScore)

/-- Predicate on provider outcomes that make analyzeTextWithAI fall back
to the keyword classifier: a thrown error, or a parsed object whose
intensity or confidence field is missing or non-numeric. -/
def aiFallsBack (resp : AIResponse) : Prop :=
  resp = .failure ∨ ∃ e i c, resp = .parsed e i c ∧ (i = none ∨ c = none)

/-- Confidence produced by fuseEmotionResults before the final 2-decimal
rounding (lines 460-467): weighted average, boosted and capped on
agreement, reduced on disagreement. -/
def fusionAdjustedConfidence (t a : EmotionResult) : ℚ :=
  let base := t.confidence * (8/10) + a.confidence * (2/10)
  if t.emotion = a.emotion then min (base * (12/10)) (95/100) else base * (8/10)

/-- Multimodal fusion fuseEmotionResults (emotionAnalysis.js lines
449-504). -/
def fuseEmotionResults (t a : EmotionResult) : EmotionResult :=
  let finalIntensity := t.intensity * (8/10) + a.intensity * (2/10)
  let finalEmotion :=
    if t.emotion = a.emotion then t.emotion
    else if a.confidence > t.confidence then a.emotion else t.emotion
  ⟨finalEmotion, round2 finalIntensity, round2 (fusionAdjustedConfidence t a)⟩

/-- One turn of a session as consumed by sessionCompletion.js: the emotion
label and intensity of the stored EmotionResult.  Both fields are Options
so that none models a missing (undefined) JavaScript property. -/
structure QA where
  emotion : Option String
  intensity : Option ℚ
deriving DecidableEq, Repr

/-- The fixed emotion base score table of calculateWellnessScore
(sessionCompletion.js lines 24-36). -/
def emotionBaseScores (e : String) : Option ℚ :=
  if e = "happy" then some 90
  else if e = "excited" then some 85
  else if e = "calm" then some 80
  else if e = "peaceful" then some 85
  else if e = "hopeful" then some 75
  else if e = "neutral" then some 60
  else if e = "confused" then some 45
  else if e = "anxious" then some 35
  else if e = "sad" then some 30
  else if e = "angry" then some 25
  else if e = "stressed" then some 30
  else none

/-- Property key used for one entry: a missing emotion indexes the object
with the string undefined, exactly as JavaScript stringifies the key. -/
def qaKey (qa : QA) : String := qa.emotion.getD "undefined"

/-- Base score of one entry: table lookup with JavaScript or-default 50. -/
def qaBase (qa : QA) : ℚ := (emotionBaseScores (qaKey qa)).getD 50

/-- Intensity of one entry: the JavaScript or-default turns a missing
value, and also the falsy number 0, into 0.5. -/
def qaIntensity (qa : QA) : ℚ :=
  match qa.intensity with
  | none => 1/2
  | some x => if x = 0 then 1/2 else x

/-- Per-entry blended score of calculateWellnessScore (line 48). -/
def entryScore (qa : QA) : ℚ := qaBase qa * qaIntensity qa + 60 * (1 - qaIntensity qa)

/-- Wellness score calculateWellnessScore (sessionCompletion.js lines
18-56): accumulate totalScore and totalWeight over the history, average,
round, clamp to the 0 to 100 range; an empty history short-circuits to
the neutral baseline 50. -/
def calculateWellnessScore (qaHistory : List QA) : ℤ :=
  if qaHistory = [] then 50
  else
    let acc := qaHistory.foldl (fun (p : ℚ × ℚ) qa => (p.1 + entryScore qa, p.2 + 1)) (0, 0)
    max 0 (min 100 (jsRound (acc.1 / acc.2)))

/-- Keys of the emotionCounts object in insertion order, i.e. in order of
first occurrence in the session. -/
def emotionKeysInOrder (l : List QA) : List String :=
  l.foldl (fun ks qa => if qaKey qa ∈ ks then ks else ks ++ [qaKey qa]) []

/-- Number of entries counted under one key of the emotionCounts object. -/
def emotionCount (l : List QA) (k : String) : ℕ :=
  l.countP (fun qa => qaKey qa == k)

/-- The fields of the session report that the verified claims are about. -/
structure SessionReport where
  wellnessScore : ℤ
  dominantEmotion : String
deriving DecidableEq, Repr

/-- Session summary generateSessionCompletion (sessionCompletion.js lines
428-475), restricted to the wellness score and the dominant emotion.  The
dominant emotion reduces the object keys without an initial value, so an
empty history makes the reduce throw, modelled as an error. -/
def generateSessionCompletion (qaHistory : List QA) : Except String SessionReport :=
  let wellness := calculateWellnessScore qaHistory
  match emotionKeysInOrder qaHistory with
  | [] => .error "Reduce of empty array with no initial value"
  | k :: ks =>
    .ok ⟨wellness,
      ks.foldl (fun a b =>
        if emotionCount qaHistory a > emotionCount qaHistory b then a else b) k⟩

/-- User profile fields consumed by the matching services.  Options model
missing JavaScript properties; an empty string city and an age of 0 are
falsy and treated as missing by the source. -/
structure UserProfile where
  city : Option String
  age : Option ℕ
  interests : List String
deriving DecidableEq, Repr

/-- One stored journal entry as consumed by the mood and activity
factors: only its emotion label matters. -/
structure MoodEntry where
  emotion : Option String
deriving DecidableEq, Repr

/-- Truthiness of a city value: missing or empty string is falsy. -/
def cityFalsy : Option String → Bool
  | none => true
  | some s => s == ""

/-- Truthiness of an age value: missing or zero is falsy. -/
def ageFalsy : Option ℕ → Bool
  | none => true
  | some n => n == 0

namespace FriendMatching

/-- The fixed per-emotion 6-dimensional similarity vectors of
friendMatching.js (lines 16-23). -/
def emotionVectors (e : String) : Option (List ℚ) :=
  if e = "happy" then some [1, 8/10, 2/10, 1/10, 3/10, 5/10]
  else if e = "sad" then some [1/10, 2/10, 1, 3/10, 1/10, 4/10]
  else if e = "angry" then some [2/10, 1/10, 4/10, 1, 2/10, 3/10]
  else if e = "anxious" then some [3/10, 2/10, 6/10, 7/10, 1, 4/10]
  else if e = "calm" then some [6/10, 9/10, 1/10, 1/10, 2/10, 1]
  else if e = "neutral" then some [5/10, 5/10, 5/10, 5/10, 5/10, 5/10]
  else none

/-- Vector of one entry: missing emotion defaults to neutral, unknown
labels fall back to the neutral vector (getMoodVector lines 227-230). -/
def entryVector (en : MoodEntry) : List ℚ :=
  (emotionVectors (en.emotion.getD "neutral")).getD
    [5/10, 5/10, 5/10, 5/10, 5/10, 5/10]

/-- Average emotion vector getMoodVector (friendMatching.js lines
223-240). -/
def getMoodVector (entries : List MoodEntry) : List ℚ :=
  if entries.length = 0 then [0, 0, 0, 0, 0, 0]
  else
    (List.range 6).map (fun i =>
      ((entries.map entryVector).map (fun v => v.getD i 0)).sum / (entries.length : ℚ))

/-- JavaScript slice minus-3: the last three elements. -/
def lastThree {α : Type} (l : List α) : List α := l.drop (l.length - 3)

/-- Dot product of two rational vectors. -/
def dotList (a b : List ℚ) : ℚ := (List.zipWith (fun x y => x * y) a b).sum

/-- Modelled from the spec: the cosine metric of the external ml-distance
library is not part of this repository; spec section 4.3 prescribes
1 minus cosineDistance of the two averaged vectors, so this is the
standard cosine distance over the reals. -/
noncomputable def cosineDistance (a b : List ℚ) : ℝ :=
  1 - (dotList a b : ℝ) / (Real.sqrt (dotList a a) * Real.sqrt (dotList b b))

/-- Mood factor calculateMoodSimilarity (friendMatching.js lines
143-162): defaults to 0.2 on an empty history, otherwise one minus the
cosine distance of the averaged last-3 vectors, clamped to the unit
interval. -/
noncomputable def calculateMoodSimilarity (e1 e2 : List MoodEntry) : ℝ :=
  if e1.length = 0 ∨ e2.length = 0 then 2/10
  else
    max 0 (min 1 (1 - cosineDistance (getMoodVector (lastThree e1))
                                     (getMoodVector (lastThree e2))))

/-- Character bigrams of a string (getBigrams lines 269-275). -/
def getBigrams (s : String) : List (Char × Char) := s.toList.zip s.toList.tail

/-- String similarity as bigram Jaccard (calculateStringSimilarity lines
248-262). -/
def calculateStringSimilarity (s1 s2 : String) : ℚ :=
  if s1 = s2 then 1
  else if s1 = "" ∨ s2 = "" then 0
  else if ((getBigrams s1).toFinset ∪ (getBigrams s2).toFinset).card = 0 then 0
  else ((getBigrams s1).toFinset ∩ (getBigrams s2).toFinset).card
    / (((getBigrams s1).toFinset ∪ (getBigrams s2).toFinset).card : ℚ)

/-- Location factor calculateLocationMatch (friendMatching.js lines
115-135). -/
def calculateLocationMatch (u1 u2 : UserProfile) : ℚ :=
  if cityFalsy u1.city ∨ cityFalsy u2.city then 1/10
  else
    let c1 := trimStr (toLowerStr (u1.city.getD ""))
    let c2 := trimStr (toLowerStr (u2.city.getD ""))
    if c1 = c2 then 1
    else
      let sim := calculateStringSimilarity c1 c2
      if sim > 8/10 then 8/10
      else if sim > 6/10 then 1/2
      else 1/10

/-- Interest factor calculateInterestOverlap (lines 170-180): Jaccard
similarity of the lowercased tag sets, 0.1 when either list is empty. -/
def calculateInterestOverlap (i1 i2 : List String) : ℚ :=
  if i1.length = 0 ∨ i2.length = 0 then 1/10
  else ((i1.map toLowerStr).toFinset ∩ (i2.map toLowerStr).toFinset).card
    / (((i1.map toLowerStr).toFinset ∪ (i2.map toLowerStr).toFinset).card : ℚ)

/-- Age factor calculateAgeCompatibility (lines 188-198). -/
def calculateAgeCompatibility (a1 a2 : Option ℕ) : ℚ :=
  if ageFalsy a1 ∨ ageFalsy a2 then 1/2
  else if ((a1.getD 0 : ℤ) - (a2.getD 0 : ℤ)).natAbs ≤ 3 then 1
  else if ((a1.getD 0 : ℤ) - (a2.getD 0 : ℤ)).natAbs ≤ 7 then 8/10
  else if ((a1.getD 0 : ℤ) - (a2.getD 0 : ℤ)).natAbs ≤ 12 then 6/10
  else if ((a1.getD 0 : ℤ) - (a2.getD 0 : ℤ)).natAbs ≤ 18 then 4/10
  else 2/10

/-- Activity factor calculateActivityMatch (lines 206-216). -/
def calculateActivityMatch (e1 e2 : List MoodEntry) : ℚ :=
  let a1 := e1.length
  let a2 := e2.length
  if a1 = 0 ∧ a2 = 0 then 1/2
  else if max a1 a2 = 0 then 0
  else (min a1 a2 : ℚ) / (max a1 a2 : ℚ)

/-- Model of toFixed 3 on the weighted total. -/
noncomputable def round3R (x : ℝ) : ℝ := (⌊1000 * x + 1/2⌋ : ℝ) / 1000

/-- Match score with per-factor breakdown, as returned by
calculateMatchScore. -/
structure MatchScore where
  total : ℝ
  location : ℚ
  mood : ℝ
  interests : ℚ
  age : ℚ
  activity : ℚ

/-- Weighted match score calculateMatchScore (friendMatching.js lines
79-107): weights location 0.4, mood 0.35, interests 0.15, age 0.05,
activity 0.05. -/
noncomputable def calculateMatchScore (u1 u2 : UserProfile)
    (e1 e2 : List MoodEntry) : MatchScore :=
  let location := calculateLocationMatch u1 u2
  let mood := calculateMoodSimilarity e1 e2
  let interests := calculateInterestOverlap u1.interests u2.interests
  let age := calculateAgeCompatibility u1.age u2.age
  let activity := calculateActivityMatch e1 e2
  { total := round3R ((location : ℝ) * (4/10) + mood * (35/100)
      + (interests : ℝ) * (15/100) + (age : ℝ) * (5/100) + (activity : ℝ) * (5/100)),
    location := location, mood := mood, interests := interests,
    age := age, activity := activity }

end FriendMatching

namespace LocalDb

/-- Duplicate scorer calculateMatchScore of localDatabase.js (lines
358-402): mood fixed at 0.5, no activity factor, age weight 0.1, result
rounded to three decimals. -/
def calculateMatchScore (u1 u2 : UserProfile) : ℚ :=
  let locationScore : ℚ :=
    if !(cityFalsy u1.city) ∧ !(cityFalsy u2.city)
        ∧ toLowerStr (u1.city.getD "") = toLowerStr (u2.city.getD "")
    then 1 else 1/10
  let ageScore : ℚ :=
    if ageFalsy u1.age ∨ ageFalsy u2.age then 0
    else
      let d := ((u1.age.getD 0 : ℤ) - (u2.age.getD 0 : ℤ)).natAbs
      if d ≤ 3 then 1
      else if d ≤ 7 then 8/10
      else if d ≤ 12 then 6/10
      else 4/10
  let interestScore : ℚ :=
    if u1.interests.length > 0 ∧ u2.interests.length > 0 then
      let s1 := (u1.interests.map toLowerStr).toFinset
      let s2 := (u2.interests.map toLowerStr).toFinset
      ((s1 ∩ s2).card : ℚ) / ((s1 ∪ s2).card : ℚ)
    else 0
  let moodScore : ℚ := 1/2
  let final := locationScore * (4/10) + moodScore * (35/100)
      + interestScore * (15/100) + ageScore * (1/10)
  (jsRound (final * 1000) : ℚ) / 1000

end LocalDb

/-! Claim-side definitions, written from the words of the spec and of the
claims, to be compared with the definitions above that embed the source. -/

/-- Dominant emotion as claim C3 states it: the most frequent key, ties
broken by the earliest first occurrence in session order. -/
def dominantByFirstOccurrence (l : List QA) : Option String :=
  let ks := emotionKeysInOrder l
  let maxCount := (ks.map (emotionCount l)).foldr max 0
  ks.find? (fun k => emotionCount l k == maxCount)

/-- Per-entry score as claim C4 states it: the base of an unknown or
missing emotion is the neutral base 60, and the intensity of the entry is
used as given. -/
def entryScoreClaim (qa : QA) : ℚ :=
  let base := (emotionBaseScores (qaKey qa)).getD 60
  let i := qa.intensity.getD (1/2)
  base * i + 60 * (1 - i)

/-- Wellness score as claim C4 states it: average the per-entry claim
scores, round to the nearest integer, clamp to the 0 to 100 range. -/
def wellnessScoreClaim (l : List QA) : ℤ :=
  max 0 (min 100 (jsRound ((l.map entryScoreClaim).sum / (l.length : ℚ))))

/-- Per-entry score as claim C4 reads after amendment: base from the
fixed table with default 50 for an unknown or missing emotion, and a
missing or zero intensity treated as 0.5. -/
def entryScoreAmended (qa : QA) : ℚ :=
  let base := (emotionBaseScores (qaKey qa)).getD 50
  let i := match qa.intensity with
    | none => 1/2
    | some x => if x = 0 then 1/2 else x
  base * i + 60 * (1 - i)

/-- Wellness score as claim C4 reads after amendment: the amended
per-entry scores averaged across all entries, rounded to the nearest
integer, clamped to the 0 to 100 range. -/
def wellnessScoreAmended (l : List QA) : ℤ :=
  max 0 (min 100 (jsRound ((l.map entryScoreAmended).sum / (l.length : ℚ))))

/-- Fusion as claim C7 reads after amendment: weighted averages with
weights text 0.8 and audio 0.2, agreement boost 1.2 capped at 0.95,
disagreement factor 0.8 with the emotion of the strictly more confident
input (text on ties), and the stored intensity and confidence rounded to
two decimal places. -/
def fuseSpec (t a : EmotionResult) : EmotionResult :=
  let w := (8/10) * t.confidence + (2/10) * a.confidence
  { emotion :=
      if t.emotion = a.emotion then t.emotion
      else if t.confidence ≥ a.confidence then t.emotion else a.emotion,
    intensity := round2 ((8/10) * t.intensity + (2/10) * a.intensity),
    confidence := round2
      (if t.emotion = a.emotion then min ((12/10) * w) (95/100) else (8/10) * w) }

/-! Helper lemmas. -/

theorem round2_nonneg {x : ℚ} (h : 0 ≤ x) : 0 ≤ round2 x := by
  unfold round2 jsRound
  have h1 : (0 : ℤ) ≤ ⌊100 * x + 1/2⌋ := by
    rw [Int.le_floor]
    push_cast
    linarith
  positivity

theorem round2_le_one {x : ℚ} (h : x ≤ 1) : round2 x ≤ 1 := by
  unfold round2 jsRound
  have h1 : ⌊100 * x + 1/2⌋ ≤ 100 := by
    have h2 : ⌊100 * x + 1/2⌋ ≤ ⌊(201/2 : ℚ)⌋ := Int.floor_le_floor (by linarith)
    have h3 : ⌊(201/2 : ℚ)⌋ = 100 := by norm_num
    omega
  rw [div_le_one (by norm_num)]
  exact_mod_cast h1

theorem foldl_pick_snd_mem (cnt : String → ℕ) :
    ∀ (l : List String) (p : ℕ × String),
      (l.foldl (fun q e => if cnt e > q.1 then (cnt e, e) else q) p).2 = p.2 ∨
      (l.foldl (fun q e => if cnt e > q.1 then (cnt e, e) else q) p).2 ∈ l := by
  intro l
  induction l with
  | nil => intro p; exact Or.inl rfl
  | cons e t ih =>
    intro p
    simp only [List.foldl_cons]
    by_cases he : cnt e > p.1
    · rw [if_pos he]
      rcases ih (cnt e, e) with h | h
      · exact Or.inr (by rw [h]; exact List.mem_cons_self e t)
      · exact Or.inr (List.mem_cons_of_mem e h)
    · rw [if_neg he]
      rcases ih p with h | h
      · exact Or.inl h
      · exact Or.inr (List.mem_cons_of_mem e h)

theorem pickPrimary_mem_closed (tokens : List String) :
    (pickPrimary tokens).2 ∈ closedEmotionSet := by
  unfold pickPrimary
  rcases foldl_pick_snd_mem (keywordMatches tokens) emotionFamily (0, "neutral") with h | h
  · rw [h]; decide
  · have hsub : ∀ x ∈ emotionFamily, x ∈ closedEmotionSet := by decide
    exact hsub _ h

theorem foldl_score_acc (f : QA → ℚ) :
    ∀ (l : List QA) (a b : ℚ),
      l.foldl (fun (p : ℚ × ℚ) qa => (p.1 + f qa, p.2 + 1)) (a, b) =
        (a + (l.map f).sum, b + l.length) := by
  intro l
  induction l with
  | nil => intro a b; simp
  | cons qa t ih =>
    intro a b
    simp only [List.foldl_cons, List.map_cons, List.sum_cons, List.length_cons, ih,
      Prod.mk.injEq]
    constructor <;> push_cast <;> ring

/-! Claim C1. -/

/-- C1 counterexample: a parseable remote response with an out-of-set
label and out-of-range numeric fields is returned verbatim by classify,
so the invariant of the claim fails on the remote path. -/
theorem c1_invariant_fails_on_remote_path :
    analyzeText true (.parsed "bogus" (some 5) (some 3)) (some "hello") 0
      = .ok ⟨"bogus", 5, 3⟩ ∧ "bogus" ∉ closedEmotionSet ∧ ¬((5 : ℚ) ≤ 1) := by
  refine ⟨?_, by decide, by norm_num⟩
  norm_num +decide [analyzeText, analyzeTextWithAI, round2, jsRound]

/-- C1 amended: the keyword path always returns an emotion in the closed
set with intensity and confidence in the unit interval, while the remote
path passes a fully parsed provider response through unvalidated apart
from the 2-decimal rounding, so there the invariant holds only if the
provider response already satisfies it. -/
theorem c1_amended_invariant (text : String) (s : ℤ) :
    ((analyzeTextWithKeywords text s).emotion ∈ closedEmotionSet ∧
     (0 ≤ (analyzeTextWithKeywords text s).intensity ∧
       (analyzeTextWithKeywords text s).intensity ≤ 1) ∧
     (0 ≤ (analyzeTextWithKeywords text s).confidence ∧
       (analyzeTextWithKeywords text s).confidence ≤ 1)) ∧
    ∀ (e : String) (iv cv : ℚ),
      analyzeTextWithAI (.parsed e (some iv) (some cv)) text s = ⟨e, round2 iv, round2 cv⟩ := by
  refine ⟨?_, fun e iv cv => rfl⟩
  unfold analyzeTextWithKeywords
  set tokens := tokenizeWords (trimStr (toLowerStr text)) with htok
  by_cases h : totalKeywordMatches tokens > 0
  · rw [if_pos h]
    refine ⟨pickPrimary_mem_closed tokens, ⟨?_, ?_⟩, ⟨?_, ?_⟩⟩
    · exact round2_nonneg (le_min (by positivity) (by norm_num))
    · exact round2_le_one (min_le_right _ _)
    · rw [if_pos h]
      exact round2_nonneg (le_min (by positivity) (by norm_num))
    · rw [if_pos h]
      exact round2_le_one (le_trans (min_le_right _ _) (by norm_num))
  · rw [if_neg h, if_neg h]
    have hc0 : (0 : ℚ) ≤ min (4/10 + |(s : ℚ)| * (5/100)) (7/10) :=
      le_min (by positivity) (by norm_num)
    have hc1 : min (4/10 + |(s : ℚ)| * (5/100)) (7/10) ≤ 1 :=
      le_trans (min_le_right _ _) (by norm_num)
    by_cases hneg : hasNegativeWords tokens ∨ s < -1
    · rw [if_pos hneg]
      refine ⟨(by decide : ("sad" : String) ∈ closedEmotionSet), ⟨?_, ?_⟩,
        round2_nonneg hc0, round2_le_one hc1⟩
      · exact round2_nonneg (le_min (by positivity) (by norm_num))
      · exact round2_le_one (le_trans (min_le_right _ _) (by norm_num))
    · rw [if_neg hneg]
      by_cases hpos : s > 3
      · rw [if_pos hpos]
        have hsq : (0 : ℚ) ≤ (s : ℚ) / 10 := by
          have : (3 : ℚ) < (s : ℚ) := by exact_mod_cast hpos
          linarith
        refine ⟨(by decide : ("happy" : String) ∈ closedEmotionSet), ⟨?_, ?_⟩,
          round2_nonneg hc0, round2_le_one hc1⟩
        · exact round2_nonneg (le_min hsq (by norm_num))
        · exact round2_le_one (le_trans (min_le_right _ _) (by norm_num))
      · rw [if_neg hpos]
        refine ⟨(by decide : ("neutral" : String) ∈ closedEmotionSet), ⟨?_, ?_⟩,
          round2_nonneg hc0, round2_le_one hc1⟩
        · exact round2_nonneg (by norm_num)
        · exact round2_le_one (by norm_num)

/-! Claim C2. -/

/-- C2 counterexample: calculateWellnessScore on an empty session list
silently returns the numeric neutral baseline 50, it does not raise. -/
theorem c2_empty_session_returns_fifty :
    calculateWellnessScore [] = 50 ∧ (50 : ℤ) ≠ 0 := by
  constructor
  · norm_num [calculateWellnessScore]
  · norm_num

/-- C2 amended: generateSessionCompletion on an empty session list does
fail with a caller-visible error (the dominant-emotion reduce over the
empty key set throws, there is no dedicated empty-session error), while
the inner calculateWellnessScore returns the neutral baseline 50 for an
empty list rather than raising. -/
theorem c2_amended_empty_session :
    generateSessionCompletion [] = .error "Reduce of empty array with no initial value" ∧
    calculateWellnessScore [] = 50 := by
  constructor
  · norm_num [generateSessionCompletion, emotionKeysInOrder]
  · norm_num [calculateWellnessScore]

/-! Claim C3. -/

theorem emotionKeys_foldl_ne_nil :
    ∀ (l : List QA) (acc : List String), acc ≠ [] →
      l.foldl (fun ks qa => if qaKey qa ∈ ks then ks else ks ++ [qaKey qa]) acc ≠ [] := by
  intro l
  induction l with
  | nil => intro acc h; exact h
  | cons qa t ih =>
    intro acc h
    simp only [List.foldl_cons]
    by_cases hm : qaKey qa ∈ acc
    · rw [if_pos hm]; exact ih acc h
    · rw [if_neg hm]; exact ih _ (by simp)

theorem emotionKeysInOrder_ne_nil (l : List QA) (h : l ≠ []) :
    emotionKeysInOrder l ≠ [] := by
  cases l with
  | nil => exact absurd rfl h
  | cons qa t =>
    unfold emotionKeysInOrder
    simp only [List.foldl_cons]
    rw [if_neg (List.not_mem_nil _)]
    exact emotionKeys_foldl_ne_nil t _ (by simp)

theorem foldl_pick_last_max (cnt : String → ℕ) :
    ∀ (ks : List String) (a : String),
      ∃ pre post,
        a :: ks = pre ++ (ks.foldl (fun x y => if cnt x > cnt y then x else y) a) :: post ∧
        (∀ k ∈ pre, cnt k ≤ cnt (ks.foldl (fun x y => if cnt x > cnt y then x else y) a)) ∧
        (∀ k ∈ post, cnt k < cnt (ks.foldl (fun x y => if cnt x > cnt y then x else y) a)) := by
  intro ks
  induction ks with
  | nil =>
    intro a
    exact ⟨[], [], rfl, by simp, by simp⟩
  | cons b t ih =>
    intro a
    simp only [List.foldl_cons]
    by_cases h : cnt a > cnt b
    · rw [if_pos h]
      obtain ⟨pre, post, heq, hpre, hpost⟩ := ih a
      cases pre with
      | nil =>
        simp only [List.nil_append] at heq
        injection heq with ha ht
        refine ⟨[], b :: t, ?_, by simp, ?_⟩
        · conv_rhs => rw [← ha]
          simp
        · intro k hk
          rcases List.mem_cons.mp hk with rfl | hk
          · rw [← ha]; exact h
          · rw [ht] at hk; exact hpost k hk
      | cons p ps =>
        injection heq with ha ht
        have hap := hpre p (List.mem_cons_self p ps)
        rw [← ha] at hap
        refine ⟨a :: b :: ps, post, ?_, ?_, hpost⟩
        · conv_lhs => rw [ht]
          simp
        · intro k hk
          rcases List.mem_cons.mp hk with rfl | hk
          · exact hap
          · rcases List.mem_cons.mp hk with rfl | hk
            · exact le_of_lt (lt_of_lt_of_le h hap)
            · exact hpre k (List.mem_cons_of_mem p hk)
    · rw [if_neg h]
      have hab : cnt a ≤ cnt b := le_of_not_lt h
      obtain ⟨pre, post, heq, hpre, hpost⟩ := ih b
      cases pre with
      | nil =>
        simp only [List.nil_append] at heq
        injection heq with hb ht
        refine ⟨[a], post, ?_, ?_, hpost⟩
        · conv_rhs => rw [← hb, ← ht]
          simp
        · intro k hk
          rcases List.mem_cons.mp hk with rfl | hk
          · exact hab.trans_eq (congrArg cnt hb)
          · exact absurd hk (List.not_mem_nil k)
      | cons p ps =>
        injection heq with hb ht
        have hbp := hpre p (List.mem_cons_self p ps)
        rw [← hb] at hbp
        refine ⟨a :: b :: ps, post, ?_, ?_, hpost⟩
        · conv_lhs => rw [ht]
          simp
        · intro k hk
          rcases List.mem_cons.mp hk with rfl | hk
          · exact hab.trans hbp
          · rcases List.mem_cons.mp hk with rfl | hk
            · exact hbp
            · exact hpre k (List.mem_cons_of_mem p hk)

/-- C3 counterexample: on the two-entry session happy then sad, the
computed dominant emotion is sad, while the claim with its
earliest-first-occurrence tie break names happy. -/
theorem c3_tie_break_counterexample :
    generateSessionCompletion [⟨some "happy", some (1/2)⟩, ⟨some "sad", some (1/2)⟩]
      = .ok ⟨60, "sad"⟩ ∧
    dominantByFirstOccurrence [⟨some "happy", some (1/2)⟩, ⟨some "sad", some (1/2)⟩]
      = some "happy" ∧
    ("sad" : String) ≠ "happy" := by
  refine ⟨?_, by decide, by decide⟩
  norm_num +decide [generateSessionCompletion, emotionKeysInOrder, emotionCount, qaKey,
    calculateWellnessScore, entryScore, qaBase, qaIntensity, emotionBaseScores, jsRound,
    List.foldl]

/-- C3 amended: for every non-empty session the dominant emotion is a
label of maximal count among the keys in first-occurrence order, and when
several keys tie for the maximal count the one whose first occurrence
comes latest is chosen: every key before it counts at most as much and
every key after it counts strictly less. -/
theorem c3_amended_dominant_last_max (l : List QA) (h : l ≠ []) :
    ∃ r pre post,
      generateSessionCompletion l = .ok r ∧
      emotionKeysInOrder l = pre ++ r.dominantEmotion :: post ∧
      (∀ k ∈ emotionKeysInOrder l, emotionCount l k ≤ emotionCount l r.dominantEmotion) ∧
      (∀ k ∈ pre, emotionCount l k ≤ emotionCount l r.dominantEmotion) ∧
      (∀ k ∈ post, emotionCount l k < emotionCount l r.dominantEmotion) := by
  have hne := emotionKeysInOrder_ne_nil l h
  cases hkeys : emotionKeysInOrder l with
  | nil => exact absurd hkeys hne
  | cons k ks =>
    obtain ⟨pre, post, heq, hpre, hpost⟩ := foldl_pick_last_max (emotionCount l) ks k
    refine ⟨⟨calculateWellnessScore l,
      ks.foldl (fun x y => if emotionCount l x > emotionCount l y then x else y) k⟩,
      pre, post, ?_, ?_, ?_, hpre, hpost⟩
    · unfold generateSessionCompletion
      rw [hkeys]
    · exact heq
    · intro x hx
      rw [heq] at hx
      rcases List.mem_append.mp hx with hx | hx
      · exact hpre x hx
      · rcases List.mem_cons.mp hx with rfl | hx
        · exact le_refl _
        · exact le_of_lt (hpost x hx)

/-- C3 witness: the amended characterization applied to a concrete
two-entry session. -/
theorem c3_amended_witness :
    ([⟨some "happy", none⟩, ⟨some "sad", none⟩] : List QA) ≠ [] ∧
    ∃ r pre post,
      generateSessionCompletion [⟨some "happy", none⟩, ⟨some "sad", none⟩] = .ok r ∧
      emotionKeysInOrder [⟨some "happy", none⟩, ⟨some "sad", none⟩]
        = pre ++ r.dominantEmotion :: post ∧
      (∀ k ∈ emotionKeysInOrder [⟨some "happy", none⟩, ⟨some "sad", none⟩],
        emotionCount [⟨some "happy", none⟩, ⟨some "sad", none⟩] k
          ≤ emotionCount [⟨some "happy", none⟩, ⟨some "sad", none⟩] r.dominantEmotion) ∧
      (∀ k ∈ pre, emotionCount [⟨some "happy", none⟩, ⟨some "sad", none⟩] k
          ≤ emotionCount [⟨some "happy", none⟩, ⟨some "sad", none⟩] r.dominantEmotion) ∧
      (∀ k ∈ post, emotionCount [⟨some "happy", none⟩, ⟨some "sad", none⟩] k
          < emotionCount [⟨some "happy", none⟩, ⟨some "sad", none⟩] r.dominantEmotion) :=
  ⟨by simp, c3_amended_dominant_last_max _ (by simp)⟩

/-! Claim C4. -/

/-- C4 counterexample: an entry with an unknown emotion label uses base
50 rather than the neutral base 60, and an entry with intensity 0 is
treated as intensity 0.5, so the score of the claim differs from the
computed score on this two-entry session. -/
theorem c4_default_base_counterexample :
    calculateWellnessScore [⟨some "melancholic", some 1⟩, ⟨some "happy", some 0⟩] = 63 ∧
    wellnessScoreClaim [⟨some "melancholic", some 1⟩, ⟨some "happy", some 0⟩] = 60 ∧
    (63 : ℤ) ≠ 60 := by
  refine ⟨?_, ?_, by norm_num⟩
  · norm_num +decide [calculateWellnessScore, entryScore, qaBase, qaIntensity, qaKey,
      emotionBaseScores, jsRound, List.foldl]
  · norm_num +decide [wellnessScoreClaim, entryScoreClaim, qaKey, emotionBaseScores,
      jsRound, List.map]

/-- C4 amended: for every non-empty session list the wellness score is
the per-entry blend base times intensity plus 60 times one minus
intensity, averaged, rounded, clamped to the 0 to 100 range, where the
base of an unknown or missing emotion is 50 and a missing or zero
intensity is treated as 0.5. -/
theorem c4_amended_wellness_formula (l : List QA) (h : l ≠ []) :
    calculateWellnessScore l = wellnessScoreAmended l := by
  unfold calculateWellnessScore wellnessScoreAmended
  rw [if_neg h, foldl_score_acc]
  have hee : entryScore = entryScoreAmended := by
    funext qa
    unfold entryScore entryScoreAmended qaBase qaIntensity
    rfl
  rw [hee]
  norm_num

/-- C4 witness: the amended formula evaluated on a concrete single-entry
session. -/
theorem c4_amended_witness :
    ([⟨some "happy", some (9/10)⟩] : List QA) ≠ [] ∧
    calculateWellnessScore [⟨some "happy", some (9/10)⟩] =
      wellnessScoreAmended [⟨some "happy", some (9/10)⟩] :=
  ⟨by simp, c4_amended_wellness_formula _ (by simp)⟩

/-! Claim C5. -/

/-- C5 counterexample: a parseable provider response whose emotion label
violates the declared schema is returned as-is rather than falling
through to the lexicon classifier. -/
theorem c5_schema_violation_counterexample :
    analyzeText true (.parsed "bogus" (some (1/2)) (some (1/2))) (some "good day") 0
      = .ok ⟨"bogus", 1/2, 1/2⟩ ∧
    analyzeTextWithKeywords "good day" 0 = ⟨"neutral", 1/2, 2/5⟩ ∧
    (⟨"bogus", 1/2, 1/2⟩ : EmotionResult) ≠ ⟨"neutral", 1/2, 2/5⟩ := by
  refine ⟨?_, ?_, ?_⟩
  · norm_num +decide [analyzeText, analyzeTextWithAI, round2, jsRound]
  · norm_num +decide [analyzeTextWithKeywords, round2, jsRound]
  · intro hcontra
    injection hcontra with h1 h2 h3
    exact absurd h1 (by decide)

/-- C5 amended: classify raises exactly on empty or non-string input, and
provider outcomes that raise inside the remote call, parse or numeric
field extraction fall through to the lexicon classifier; however a
parseable response with numeric fields is returned as-is even when its
emotion label violates the schema. -/
theorem c5_amended_error_and_fallback (useAI : Bool) (resp : AIResponse)
    (input : Option String) (s : ℤ) :
    ((∃ msg, analyzeText useAI resp input s = .error msg) ↔
      input = none ∨ input = some "") ∧
    (∀ t, input = some t → t ≠ "" → aiFallsBack resp →
      analyzeText true resp input s = .ok (analyzeTextWithKeywords t s)) := by
  constructor
  · constructor
    · rintro ⟨msg, hmsg⟩
      cases input with
      | none => exact Or.inl rfl
      | some t =>
        by_cases ht : t = ""
        · subst ht; exact Or.inr rfl
        · exfalso
          simp only [analyzeText] at hmsg
          rw [if_neg ht] at hmsg
          exact Except.noConfusion hmsg
    · rintro (rfl | rfl)
      · exact ⟨_, rfl⟩
      · exact ⟨"Text emotion analysis failed: Invalid text input for emotion analysis",
          by simp [analyzeText]⟩
  · intro t hin ht hfb
    subst hin
    simp only [analyzeText]
    rw [if_neg ht]
    rcases hfb with rfl | ⟨e, i, c, rfl, hic⟩
    · rfl
    · rcases hic with rfl | rfl
      · rfl
      · cases i <;> rfl

/-- C5 witness: the amended statement applied at a null input and at a
failing provider call over a concrete text. -/
theorem c5_amended_witness :
    (∃ msg, analyzeText true .failure none 0 = .error msg) ∧
    analyzeText true .failure (some "xq") 0 = .ok (analyzeTextWithKeywords "xq" 0) :=
  ⟨((c5_amended_error_and_fallback true .failure none 0).1).mpr (Or.inl rfl),
   (c5_amended_error_and_fallback true .failure (some "xq") 0).2 "xq" rfl (by decide)
     (Or.inl rfl)⟩

/-! Claim C6. -/

/-- C6 counterexample: with agreeing emotions and text confidence 0,
audio confidence 1, the fused confidence is 0.24, far below 0.8 times the
larger input confidence. -/
theorem c6_agreement_bound_counterexample :
    (fuseEmotionResults ⟨"happy", 1/2, 0⟩ ⟨"happy", 1/2, 1⟩).confidence = 6/25 ∧
    ¬((6/25 : ℚ) ≥ (8/10) * max (0 : ℚ) 1) := by
  constructor
  · norm_num [fuseEmotionResults, fusionAdjustedConfidence, round2, jsRound]
  · norm_num

/-- C6 amended: when the two inputs agree on emotion and confidences lie
in the unit interval, the fused confidence before the final 2-decimal
rounding is at least 0.8 times the text confidence; the bound of the
claim with the maximum of both confidences fails when the audio
confidence sufficiently exceeds the text confidence. -/
theorem c6_amended_text_confidence_bound (t a : EmotionResult)
    (he : t.emotion = a.emotion) (h0 : 0 ≤ t.confidence) (h1 : t.confidence ≤ 1)
    (h2 : 0 ≤ a.confidence) :
    (8/10) * t.confidence ≤ fusionAdjustedConfidence t a := by
  unfold fusionAdjustedConfidence
  rw [if_pos he]
  exact le_min (by nlinarith) (by nlinarith)

/-- C6 witness: the amended bound applied at concrete agreeing inputs. -/
theorem c6_amended_witness :
    ("happy" : String) = "happy" ∧ (0 : ℚ) ≤ 1/2 ∧ (1/2 : ℚ) ≤ 1 ∧ (0 : ℚ) ≤ 3/4 ∧
    (8/10) * (1/2 : ℚ) ≤ fusionAdjustedConfidence ⟨"happy", 1/2, 1/2⟩ ⟨"happy", 1/2, 3/4⟩ :=
  ⟨rfl, by norm_num, by norm_num, by norm_num,
    c6_amended_text_confidence_bound ⟨"happy", 1/2, 1/2⟩ ⟨"happy", 1/2, 3/4⟩ rfl
      (by norm_num) (by norm_num) (by norm_num)⟩

/-! Claim C7. -/

/-- C7 counterexample: the stored fused intensity is the weighted average
rounded to two decimals, which differs from the exact weighted average on
this input, so the claim as stated fails. -/
theorem c7_rounding_counterexample :
    (fuseEmotionResults ⟨"happy", 33/100, 33/100⟩ ⟨"sad", 57/100, 57/100⟩).intensity = 19/50 ∧
    (19/50 : ℚ) ≠ (33/100) * (8/10) + (57/100) * (2/10) := by
  constructor
  · norm_num [fuseEmotionResults, round2, jsRound]
  · norm_num

/-- C7 amended: fusion computes the weighted averages with weights text
0.8 and audio 0.2, boosts agreement by 1.2 capped at 0.95, reduces
disagreement by 0.8 adopting the emotion of the strictly more confident
input with text kept on ties, and rounds the stored intensity and
confidence to two decimal places. -/
theorem c7_amended_fusion_algorithm (t a : EmotionResult) :
    fuseEmotionResults t a = fuseSpec t a := by
  simp only [fuseEmotionResults, fuseSpec, fusionAdjustedConfidence]
  have h1 : t.intensity * (8/10) + a.intensity * (2/10)
      = (8/10) * t.intensity + (2/10) * a.intensity := by ring
  have h2 : (t.confidence * (8/10) + a.confidence * (2/10)) * (12/10)
      = (12/10) * ((8/10) * t.confidence + (2/10) * a.confidence) := by ring
  have h3 : (t.confidence * (8/10) + a.confidence * (2/10)) * (8/10)
      = (8/10) * ((8/10) * t.confidence + (2/10) * a.confidence) := by ring
  have hcmp : (if a.confidence > t.confidence then a.emotion else t.emotion) =
      (if t.confidence ≥ a.confidence then t.emotion else a.emotion) := by
    by_cases hc : a.confidence > t.confidence
    · rw [if_pos hc, if_neg (not_le.mpr hc)]
    · rw [if_neg hc, if_pos (le_of_not_lt hc)]
  rw [h1, h2, h3, hcmp]

/-! Claim C10. -/

/-- C10: with zero keyword matches the lexicon classifier is driven by
sentiment alone: a negative-prefixed token or sentiment below -1 yields
sad, sentiment above 3 yields happy, anything else yields neutral. -/
theorem c10_zero_match_sentiment_fallback (text : String) (s : ℤ)
    (h : totalKeywordMatches (tokenizeWords (trimStr (toLowerStr text))) = 0) :
    (analyzeTextWithKeywords text s).emotion =
      if hasNegativeWords (tokenizeWords (trimStr (toLowerStr text))) ∨ s < -1 then "sad"
      else if s > 3 then "happy"
      else "neutral" := by
  unfold analyzeTextWithKeywords
  rw [if_neg (by rw [h]; exact lt_irrefl 0)]
  split_ifs <;> rfl

/-- C10 witness: a keyword-free text with sentiment 4 is classified
happy. -/
theorem c10_witness :
    totalKeywordMatches (tokenizeWords (trimStr (toLowerStr "zzz"))) = 0 ∧
    (analyzeTextWithKeywords "zzz" 4).emotion = "happy" :=
  ⟨by decide, by rw [c10_zero_match_sentiment_fallback "zzz" 4 (by decide)]; decide⟩

/-! Claims C8 and C9: the compatibility scorer. -/

namespace FriendMatching

theorem dotList_comm (a : List ℚ) : ∀ b : List ℚ, dotList a b = dotList b a := by
  induction a with
  | nil => intro b; cases b <;> rfl
  | cons x xs ih =>
    intro b
    cases b with
    | nil => rfl
    | cons y ys =>
      have h := ih ys
      simp only [dotList, List.zipWith_cons_cons, List.sum_cons] at h ⊢
      rw [mul_comm, h]

theorem cosineDistance_comm (a b : List ℚ) : cosineDistance a b = cosineDistance b a := by
  unfold cosineDistance
  rw [dotList_comm a b, mul_comm]

theorem calculateMoodSimilarity_comm (e1 e2 : List MoodEntry) :
    calculateMoodSimilarity e1 e2 = calculateMoodSimilarity e2 e1 := by
  unfold calculateMoodSimilarity
  by_cases h : e1.length = 0 ∨ e2.length = 0
  · rw [if_pos h, if_pos (Or.symm h)]
  · rw [if_neg h, if_neg (fun hh => h (Or.symm hh)), cosineDistance_comm]

theorem calculateStringSimilarity_comm (s1 s2 : String) :
    calculateStringSimilarity s1 s2 = calculateStringSimilarity s2 s1 := by
  unfold calculateStringSimilarity
  by_cases h : s1 = s2
  · rw [if_pos h, if_pos h.symm]
  · rw [if_neg h, if_neg (show ¬(s2 = s1) from fun hh => h hh.symm)]
    by_cases h1 : s1 = "" ∨ s2 = ""
    · rw [if_pos h1, if_pos (Or.symm h1)]
    · rw [if_neg h1, if_neg (fun hh => h1 (Or.symm hh)), Finset.inter_comm,
        Finset.union_comm]

theorem calculateLocationMatch_comm (u1 u2 : UserProfile) :
    calculateLocationMatch u1 u2 = calculateLocationMatch u2 u1 := by
  unfold calculateLocationMatch
  by_cases h : (cityFalsy u1.city = true) ∨ (cityFalsy u2.city = true)
  · rw [if_pos h, if_pos (Or.symm h)]
  · rw [if_neg h, if_neg (fun hh => h (Or.symm hh))]
    by_cases hc : trimStr (toLowerStr (u1.city.getD ""))
        = trimStr (toLowerStr (u2.city.getD ""))
    · rw [if_pos hc, if_pos hc.symm]
    · rw [if_neg hc,
        if_neg (show ¬(trimStr (toLowerStr (u2.city.getD ""))
          = trimStr (toLowerStr (u1.city.getD ""))) from fun hh => hc hh.symm),
        calculateStringSimilarity_comm]

theorem calculateInterestOverlap_comm (i1 i2 : List String) :
    calculateInterestOverlap i1 i2 = calculateInterestOverlap i2 i1 := by
  unfold calculateInterestOverlap
  by_cases h : i1.length = 0 ∨ i2.length = 0
  · rw [if_pos h, if_pos (Or.symm h)]
  · rw [if_neg h, if_neg (fun hh => h (Or.symm hh)), Finset.inter_comm,
      Finset.union_comm]

theorem calculateAgeCompatibility_comm (a1 a2 : Option ℕ) :
    calculateAgeCompatibility a1 a2 = calculateAgeCompatibility a2 a1 := by
  unfold calculateAgeCompatibility
  by_cases h : (ageFalsy a1 = true) ∨ (ageFalsy a2 = true)
  · rw [if_pos h, if_pos (Or.symm h)]
  · have hd : ((a1.getD 0 : ℤ) - (a2.getD 0 : ℤ)).natAbs
        = ((a2.getD 0 : ℤ) - (a1.getD 0 : ℤ)).natAbs := by omega
    rw [if_neg h, if_neg (fun hh => h (Or.symm hh)), hd]

theorem calculateActivityMatch_comm (e1 e2 : List MoodEntry) :
    calculateActivityMatch e1 e2 = calculateActivityMatch e2 e1 := by
  unfold calculateActivityMatch
  by_cases h : e1.length = 0 ∧ e2.length = 0
  · rw [if_pos h, if_pos (And.symm h)]
  · rw [if_neg h, if_neg (fun hh => h (And.symm hh)),
      Nat.max_comm e1.length e2.length,
      min_comm (e1.length : ℚ) (e2.length : ℚ),
      max_comm (e1.length : ℚ) (e2.length : ℚ)]

theorem dotList_self_nonneg : ∀ v : List ℚ, 0 ≤ dotList v v := by
  intro v
  induction v with
  | nil => simp [dotList]
  | cons x xs ih =>
    simp only [dotList, List.zipWith_cons_cons, List.sum_cons] at ih ⊢
    nlinarith [mul_self_nonneg x]

theorem dotList_self_pos (v : List ℚ) (h : 0 < v.getD 0 0) : 0 < dotList v v := by
  cases v with
  | nil => simp [List.getD] at h
  | cons x xs =>
    simp only [List.getD_cons_zero] at h
    have hxs := dotList_self_nonneg xs
    simp only [dotList, List.zipWith_cons_cons, List.sum_cons] at hxs ⊢
    nlinarith [mul_pos h h]

theorem entryVector_head (en : MoodEntry) : 1/10 ≤ (entryVector en).getD 0 0 := by
  unfold entryVector emotionVectors
  split_ifs <;> norm_num [List.getD_cons_zero]

theorem sum_ge_tenth : ∀ (l : List ℚ), (∀ x ∈ l, (1 : ℚ)/10 ≤ x) →
    (l.length : ℚ) * (1/10) ≤ l.sum := by
  intro l
  induction l with
  | nil => intro _; simp
  | cons x xs ih =>
    intro hall
    have hx := hall x (List.mem_cons_self x xs)
    have hxs := ih (fun y hy => hall y (List.mem_cons_of_mem x hy))
    simp only [List.length_cons, List.sum_cons]
    push_cast
    linarith

theorem moodVector_head_pos (l : List MoodEntry) (h : l ≠ []) :
    0 < (getMoodVector l).getD 0 0 := by
  unfold getMoodVector
  have hlen : l.length ≠ 0 := by simpa [List.length_eq_zero] using h
  rw [if_neg hlen]
  have hr : List.range 6 = [0, 1, 2, 3, 4, 5] := rfl
  rw [hr]
  simp only [List.map_cons, List.getD_cons_zero]
  have hsum : ((((l.map entryVector).map (fun v => v.getD 0 0)).length : ℚ) * (1/10))
      ≤ ((l.map entryVector).map (fun v => v.getD 0 0)).sum := by
    refine sum_ge_tenth _ ?_
    intro x hx
    rcases List.mem_map.mp hx with ⟨v, hv, rfl⟩
    rcases List.mem_map.mp hv with ⟨en, _, rfl⟩
    exact entryVector_head en
  simp only [List.length_map] at hsum
  have hlpos : 0 < (l.length : ℚ) := by
    have : 0 < l.length := Nat.pos_of_ne_zero hlen
    exact_mod_cast this
  refine div_pos ?_ hlpos
  calc (0 : ℚ) < (l.length : ℚ) * (1/10) := by positivity
    _ ≤ _ := hsum

theorem lastThree_ne_nil {α : Type} (l : List α) (h : l ≠ []) : lastThree l ≠ [] := by
  unfold lastThree
  intro hc
  have hlen := congrArg List.length hc
  rw [List.length_drop] at hlen
  have hnz : l.length ≠ 0 := by simpa [List.length_eq_zero] using h
  simp only [List.length_nil] at hlen
  omega

theorem calculateMoodSimilarity_self (e : List MoodEntry) (h : e ≠ []) :
    calculateMoodSimilarity e e = 1 := by
  unfold calculateMoodSimilarity
  have hlen : e.length ≠ 0 := by simpa [List.length_eq_zero] using h
  rw [if_neg (by simp [hlen])]
  have hdv : 0 < dotList (getMoodVector (lastThree e)) (getMoodVector (lastThree e)) :=
    dotList_self_pos _ (moodVector_head_pos _ (lastThree_ne_nil e h))
  have hcd : cosineDistance (getMoodVector (lastThree e)) (getMoodVector (lastThree e)) = 0 := by
    unfold cosineDistance
    have hd : (0 : ℝ) < ((dotList (getMoodVector (lastThree e)) (getMoodVector (lastThree e)) : ℚ) : ℝ) := by
      exact_mod_cast hdv
    rw [Real.mul_self_sqrt hd.le, div_self hd.ne.symm]
    ring
  rw [hcd]
  norm_num

end FriendMatching

/-- C9: the compatibility scorer is symmetric: swapping the two profiles
and their histories leaves every factor sub-score of the breakdown, and
therefore the weighted rounded total, unchanged. -/
theorem c9_match_score_symmetric (u1 u2 : UserProfile) (e1 e2 : List MoodEntry) :
    FriendMatching.calculateMatchScore u1 u2 e1 e2
      = FriendMatching.calculateMatchScore u2 u1 e2 e1 := by
  unfold FriendMatching.calculateMatchScore
  rw [FriendMatching.calculateLocationMatch_comm, FriendMatching.calculateMoodSimilarity_comm,
    FriendMatching.calculateInterestOverlap_comm, FriendMatching.calculateAgeCompatibility_comm,
    FriendMatching.calculateActivityMatch_comm]

/-- C8 counterexample: in the localDatabase variant of the scorer the
mood factor is fixed at 0.5, so a fully populated profile matched against
itself scores 0.825, not 1.0. -/
theorem c8_self_match_counterexample :
    LocalDb.calculateMatchScore ⟨some "austin", some 30, ["music"]⟩
      ⟨some "austin", some 30, ["music"]⟩ = 825/1000 ∧ (825/1000 : ℚ) ≠ 1 := by
  constructor
  · norm_num +decide [LocalDb.calculateMatchScore, cityFalsy, ageFalsy, toLowerStr, jsRound]
  · norm_num

/-- C8 amended: in the friendMatching scorer, a profile with a present
non-empty city, a present non-zero age, a non-empty interest list and a
non-empty entry history scores total exactly 1.0 against itself; profiles
missing any of these fields fall back to defaults below 1, and the
localDatabase variant never reaches 1.0 because its mood factor is fixed
at 0.5. -/
theorem c8_amended_self_match_total_one (u : UserProfile) (e : List MoodEntry)
    (hc : ∃ s, u.city = some s ∧ s ≠ "")
    (ha : ∃ n, u.age = some n ∧ n ≠ 0)
    (hi : u.interests ≠ [])
    (he : e ≠ []) :
    (FriendMatching.calculateMatchScore u u e e).total = 1 := by
  obtain ⟨s, hcs, hsne⟩ := hc
  obtain ⟨n, han, hnne⟩ := ha
  have hcf : cityFalsy u.city = false := by
    rw [hcs]
    simpa [cityFalsy] using hsne
  have haf : ageFalsy u.age = false := by
    rw [han]
    simpa [ageFalsy] using hnne
  have hloc : FriendMatching.calculateLocationMatch u u = 1 := by
    unfold FriendMatching.calculateLocationMatch
    rw [if_neg (by simp [hcf]), if_pos rfl]
  have hint : FriendMatching.calculateInterestOverlap u.interests u.interests = 1 := by
    unfold FriendMatching.calculateInterestOverlap
    have hilen : u.interests.length ≠ 0 := by
      simpa [List.length_eq_zero] using hi
    rw [if_neg (by simp [hilen])]
    rw [Finset.inter_self, Finset.union_self]
    have hne : ((u.interests.map toLowerStr).toFinset.card : ℚ) ≠ 0 := by
      have : (u.interests.map toLowerStr).toFinset.Nonempty := by
        cases hu : u.interests with
        | nil => exact absurd hu hi
        | cons a t =>
          refine ⟨toLowerStr a, ?_⟩
          simp
      have hpos := Finset.card_pos.mpr this
      exact_mod_cast Nat.pos_iff_ne_zero.mp hpos
    exact div_self hne
  have hage : FriendMatching.calculateAgeCompatibility u.age u.age = 1 := by
    unfold FriendMatching.calculateAgeCompatibility
    rw [if_neg (by simp [haf]), if_pos (by simp)]
  have hact : FriendMatching.calculateActivityMatch e e = 1 := by
    unfold FriendMatching.calculateActivityMatch
    have helen : e.length ≠ 0 := by simpa [List.length_eq_zero] using he
    rw [if_neg (by simp [helen])]
    rw [if_neg (by simp [helen])]
    rw [min_self, max_self]
    exact div_self (by exact_mod_cast helen)
  have hmood := FriendMatching.calculateMoodSimilarity_self e he
  unfold FriendMatching.calculateMatchScore
  rw [hloc, hint, hage, hact, hmood]
  show FriendMatching.round3R _ = 1
  norm_num [FriendMatching.round3R]

/-- C8 witness: the amended self-match property applied at a concrete
fully populated profile. -/
theorem c8_amended_witness :
    (∃ s, (⟨some "austin", some 30, ["music"]⟩ : UserProfile).city = some s ∧ s ≠ "") ∧
    (∃ n, (⟨some "austin", some 30, ["music"]⟩ : UserProfile).age = some n ∧ n ≠ 0) ∧
    (⟨some "austin", some 30, ["music"]⟩ : UserProfile).interests ≠ [] ∧
    ([⟨some "happy"⟩] : List MoodEntry) ≠ [] ∧
    (FriendMatching.calculateMatchScore ⟨some "austin", some 30, ["music"]⟩
      ⟨some "austin", some 30, ["music"]⟩ [⟨some "happy"⟩] [⟨some "happy"⟩]).total = 1 :=
  ⟨⟨"austin", rfl, by decide⟩, ⟨30, rfl, by decide⟩, by simp, by simp,
    c8_amended_self_match_total_one _ _ ⟨"austin", rfl, by decide⟩ ⟨30, rfl, by decide⟩
      (by simp) (by simp)⟩

end MindMate